import Mathlib

/-!
Verification development for the pharmacy catalog bot
(`src/telegram-pharmacy-cloud-bot.py`).

The pure decision logic of the script is embedded shallowly:
- external effects (PDF extraction, pandas parsing, the inference API)
  become explicit inputs;
- the cache file and the PDF directory become an explicit `FS` state
  threaded through the functions that read or write them;
- Python exceptions become `Except` results;
- Python string truthiness (`if text:`) becomes an emptiness test.
-/

namespace PharmacyBot

/-- Python substring membership `sub in s`, on strings as character sequences. -/
def strContains (s sub : String) : Bool := decide (sub.toList <:+: s.toList)

/-- The `'='*60` banner line used to delimit corpus sections. -/
def banner : String := String.mk (List.replicate 60 '=')

/-! ## Model Resolver (`pick_available_model`, lines 108-124) -/

/-- Value of the id-extraction expression
`getattr(m, "id", None) or (isinstance(m, dict) and m.get("id"))` for one
listed model entry: a string when the entry carries an id, otherwise the
non-string Python values `None` or `False` that the expression can produce. -/
inductive PyId where
  | str : String → PyId
  | pyNone : PyId
  | pyFalse : PyId
  deriving DecidableEq, Repr

/-- How `pick_available_model` can fail after a failed probe: a Python
`TypeError` from `sub in mid` when `mid` is not a string, or the
`RuntimeError` configuration error raised when no substring matches. -/
inductive PickErr where
  | typeError : PickErr
  | configError : String → PickErr
  deriving DecidableEq, Repr

/-- One fallback loop `for mid in ids: if sub in mid: return mid`:
returns the first matching id; a non-string `mid` raises `TypeError`
the moment the membership test reaches it. -/
def findLoop (sub : String) : List PyId → Except PickErr (Option String)
  | [] => Except.ok none
  | PyId.str s :: rest =>
    if strContains s sub then Except.ok (some s) else findLoop sub rest
  | PyId.pyNone :: _ => Except.error PickErr.typeError
  | PyId.pyFalse :: _ => Except.error PickErr.typeError

/-- The preferred model alias probed first. -/
def PREFERRED_ALIAS : String := "claude-sonnet-4-5"

/-- `pick_available_model`: the probe (`client.messages.create` with the
preferred alias) is an external call whose outcome is the boolean input
`probeOk`; `ids` is the list of extracted identifiers that
`client.models.list()` would yield; the returned `Nat` counts how many
times the model-listing call was performed. -/
def pick_available_model (probeOk : Bool) (ids : List PyId) :
    Except PickErr String × Nat :=
  if probeOk then (Except.ok PREFERRED_ALIAS, 0)
  else
    (match findLoop "sonnet" ids with
     | Except.error e => Except.error e
     | Except.ok (some m) => Except.ok m
     | Except.ok none =>
       match findLoop "haiku" ids with
       | Except.error e => Except.error e
       | Except.ok (some m) => Except.ok m
       | Except.ok none =>
         Except.error (PickErr.configError
           "No hay modelos válidos para esta API key."), 1)

/-- The Model Resolver fallback as the spec words it: the first listed
identifier containing `"sonnet"`, else the first containing `"haiku"`,
else a configuration error. Stated over plain strings to be compared with
the loop-based embedding above. -/
def resolveBySpecScan (ids : List String) : Except PickErr String :=
  match ids.find? (fun s => strContains s "sonnet") with
  | some m => Except.ok m
  | none =>
    match ids.find? (fun s => strContains s "haiku") with
    | some m => Except.ok m
    | none =>
      Except.error (PickErr.configError
        "No hay modelos válidos para esta API key.")

/-! ## Text Corpus Builder and Knowledge Cache (lines 32-91) -/

/-- One document section of the catalog blob:
`f"\n{'='*60}\nARCHIVO: {name}\n{'='*60}\n{text}"`. -/
def pdfSection (name text : String) : String :=
  "\n" ++ banner ++ "\nARCHIVO: " ++ name ++ "\n" ++ banner ++ "\n" ++ text

/-- Ordering used by `sorted(pdf_files)`: paths in one directory compare
lexicographically by file name, code point by code point. -/
def nameOrder (a b : String × String) : Prop := a.1.toList ≤ b.1.toList

instance : DecidableRel nameOrder :=
  fun a b => inferInstanceAs (Decidable (a.1.toList ≤ b.1.toList))

instance : IsTotal (String × String) nameOrder :=
  ⟨fun a b => le_total a.1.toList b.1.toList⟩

instance : IsTrans (String × String) nameOrder :=
  ⟨fun _ _ _ h1 h2 => le_trans h1 h2⟩

/-- The `sorted(pdf_files)` step, on documents given as
(file name, extracted text) pairs: a stable sort by file name, which is
what Python's `sorted` performs on paths sharing one directory.
Extraction failure already yields `""` inside `extract_text_from_pdf`
(`except ... return ""`). -/
def sortByName (files : List (String × String)) : List (String × String) :=
  files.insertionSort nameOrder

/-- Filesystem state read and written by the builder and the cache:
the cache file (`none` = absent) and the PDF directory (`none` = absent;
a present directory is its `*.pdf` files as (name, extracted text) pairs,
in filesystem enumeration order). -/
structure FS where
  cacheFile : Option String
  pdfDir : Option (List (String × String))
  deriving DecidableEq, Repr

/-- `load_all_pdfs`: create the directory if missing (`mkdir(exist_ok=True)`),
glob `*.pdf`, return `""` without writing when there are none; otherwise
concatenate, in name order, one section per document whose extracted text is
non-empty (`if text:`), write the blob to the cache file and return it. -/
def load_all_pdfs (fs : FS) : String × FS :=
  let files := fs.pdfDir.getD []
  let fsDir : FS := { fs with pdfDir := some files }
  if files = [] then ("", fsDir)
  else
    let full := (sortByName files).foldl
      (fun acc ft => if ft.2 = "" then acc else acc ++ pdfSection ft.1 ft.2) ""
    (full, { fsDir with cacheFile := some full })

/-- `get_catalog`: serve the cache file verbatim when it exists, otherwise
rebuild via `load_all_pdfs`. -/
def get_catalog (fs : FS) : String × FS :=
  match fs.cacheFile with
  | some content => (content, fs)
  | none => load_all_pdfs fs

/-! ## Spreadsheet Corpus Builder (`load_promotions_and_bonuses`, lines 69-85) -/

/-- Input to the Spreadsheet Corpus Builder: the file may be absent; a
present file either parses (externally, via pandas) into sheets given as
(sheet name, rendered table text) pairs in file order, or fails with an
error message `e` caught by the `except` clause. -/
inductive PromoSource where
  | absent : PromoSource
  | present : Except String (List (String × String)) → PromoSource

/-- The per-sheet header block `f"\n{'='*60}\nHOJA: {sheet_name}\n{'='*60}\n"`. -/
def sheetHeader (name : String) : String :=
  "\n" ++ banner ++ "\nHOJA: " ++ name ++ "\n" ++ banner ++ "\n"

/-- `load_promotions_and_bonuses`: absent file yields `""` (with a logged
warning); a parse error `e` yields the inline diagnostic
`f"(Error leyendo Excel: {e})"`; otherwise header and rendered table per
sheet, joined by `"\n".join(text_blocks)`. -/
def load_promotions_and_bonuses (src : PromoSource) : String :=
  match src with
  | PromoSource.absent => ""
  | PromoSource.present (Except.error e) => "(Error leyendo Excel: " ++ e ++ ")"
  | PromoSource.present (Except.ok sheets) =>
    String.intercalate "\n"
      (sheets.foldr (fun sh acc => sheetHeader sh.1 :: sh.2 :: acc) [])

/-- `get_full_knowledge`: catalog and promotions corpora under the two
fixed section labels. -/
def combineKnowledge (catalogText promoText : String) : String :=
  "CATÁLOGO DE PRODUCTOS:\n" ++ catalogText ++
    "\n\nPROMOCIONES Y BONIFICACIONES:\n" ++ promoText

/-- `get_full_knowledge` with its cache side effect threaded through. -/
def get_full_knowledge (fs : FS) (promo : PromoSource) : String × FS :=
  let cp := get_catalog fs
  (combineKnowledge cp.1 (load_promotions_and_bonuses promo), cp.2)

/-! ## Message handler and HTTP endpoint heads (lines 187-232) -/

/-- What `handle_message` does with the knowledge string before any
network call: the `"⚠️ Sin datos"` reply on an empty string, otherwise the
assembled prompt content submitted to the backend. -/
inductive HandleAction where
  | noDataReply : HandleAction
  | queryBackend : String → HandleAction
  deriving DecidableEq, Repr

/-- The prompt content
`f"BASE DE CONOCIMIENTO:\n{knowledge}\n---\nPregunta: {msg}\nResponde en español."`. -/
def promptContent (knowledge userMsg : String) : String :=
  "BASE DE CONOCIMIENTO:\n" ++ knowledge ++ "\n---\nPregunta: " ++ userMsg ++
    "\nResponde en español."

/-- The branch of `handle_message` guarded by `if not knowledge`. -/
def handle_message_dispatch (knowledge userMsg : String) : HandleAction :=
  if knowledge = "" then HandleAction.noDataReply
  else HandleAction.queryBackend (promptContent knowledge userMsg)

/-- Outcome of the `/consulta` endpoint before any network call. -/
inductive ConsultaResult where
  | errorNoData : ConsultaResult
  | queryBackend : String → ConsultaResult
  deriving DecidableEq, Repr

/-- The branch of `consulta` guarded by `if not knowledge`. -/
def consulta_dispatch (knowledge pregunta : String) : ConsultaResult :=
  if knowledge = "" then ConsultaResult.errorNoData
  else ConsultaResult.queryBackend (promptContent knowledge pregunta)

/-! ## Response chunking (`handle_message`, lines 206-208) -/

/-- The chunk size constant `MAX_LEN = 3900`. -/
def MAX_LEN : Nat := 3900

/-- `for i in range(0, len(response_text), MAX_LEN): reply(response_text[i:i+MAX_LEN])`:
successive fixed-width slices of the response, on the response text as its
sequence of characters (Python slices strings by code point). -/
def chunks (cs : List Char) : List (List Char) :=
  if h : cs = [] then []
  else cs.take MAX_LEN :: chunks (cs.drop MAX_LEN)
termination_by cs.length
decreasing_by
  have hM : 0 < MAX_LEN := by decide
  have hpos : 0 < cs.length := List.length_pos.mpr h
  simp only [List.length_drop]
  omega

/-! ## Claim theorems -/

/-- C4: for every cache-file state, if the Cache File exists with content
`X`, `get_catalog` returns `X` verbatim and leaves the state (in particular
the source directory) untouched, regardless of the directory's contents;
if the Cache File does not exist, `get_catalog` invokes the Text Corpus
Builder and returns its result. -/
theorem get_catalog_cache_semantics :
    (∀ fs X, fs.cacheFile = some X → get_catalog fs = (X, fs)) ∧
    (∀ fs, fs.cacheFile = none → get_catalog fs = load_all_pdfs fs) := by
  constructor
  · intro fs X h
    simp [get_catalog, h]
  · intro fs h
    simp [get_catalog, h]

/-- Witness for `get_catalog_cache_semantics` at concrete states: a cache
holding `"X"` over a non-empty directory, and an absent cache. -/
theorem get_catalog_cache_semantics_witness :
    get_catalog ⟨some "X", some [("a.pdf", "t")]⟩ =
      ("X", ⟨some "X", some [("a.pdf", "t")]⟩) ∧
    get_catalog ⟨none, some [("a.pdf", "t")]⟩ =
      load_all_pdfs ⟨none, some [("a.pdf", "t")]⟩ :=
  ⟨get_catalog_cache_semantics.1 ⟨some "X", some [("a.pdf", "t")]⟩ "X" rfl,
   get_catalog_cache_semantics.2 ⟨none, some [("a.pdf", "t")]⟩ rfl⟩

/-- C7: the Spreadsheet Corpus Builder never raises: an absent file yields
the empty string, and a parse failure with detail `e` yields the inline
diagnostic string, which contains `e`. -/
theorem promotions_builder_total :
    load_promotions_and_bonuses PromoSource.absent = "" ∧
    ∀ e, load_promotions_and_bonuses (PromoSource.present (Except.error e)) =
        "(Error leyendo Excel: " ++ e ++ ")" ∧
      strContains
        (load_promotions_and_bonuses (PromoSource.present (Except.error e)))
        e = true := by
  refine ⟨rfl, fun e => ⟨rfl, ?_⟩⟩
  simp only [load_promotions_and_bonuses, strContains, decide_eq_true_eq]
  refine ⟨"(Error leyendo Excel: ".toList, ")".toList, ?_⟩
  simp [String.toList]

/-- C8: a directory with zero eligible documents (whether absent, in which
case it is created, or present and empty) makes the Text Corpus Builder
return the empty string and leave the cache file untouched — in particular
no non-empty cache file is created. -/
theorem corpus_builder_empty_dir :
    ∀ cache : Option String,
      load_all_pdfs ⟨cache, none⟩ = ("", ⟨cache, some []⟩) ∧
      load_all_pdfs ⟨cache, some []⟩ = ("", ⟨cache, some []⟩) := by
  intro cache
  exact ⟨rfl, rfl⟩

/-- C2 (code slip): with both corpora empty the knowledge string still
carries the two section labels, so `handle_message`'s `if not knowledge`
guard does not fire: instead of the "Sin datos" reply, a request is
assembled and submitted to the inference backend. -/
theorem empty_corpora_still_query_backend :
    (get_full_knowledge ⟨none, none⟩ PromoSource.absent).1 =
      "CATÁLOGO DE PRODUCTOS:\n\n\nPROMOCIONES Y BONIFICACIONES:\n" ∧
    handle_message_dispatch
        (get_full_knowledge ⟨none, none⟩ PromoSource.absent).1 "q" =
      HandleAction.queryBackend
        (promptContent
          "CATÁLOGO DE PRODUCTOS:\n\n\nPROMOCIONES Y BONIFICACIONES:\n" "q") := by
  constructor
  · rfl
  · rfl

/-- C9: `get_full_knowledge` is non-empty for every state of the cache,
directory and spreadsheet — the fixed section labels are always present —
so neither the message handler's "no data" guard nor the HTTP endpoint's
error guard can ever fire. -/
theorem full_knowledge_never_empty :
    ∀ (fs : FS) (promo : PromoSource) (q : String),
      (get_full_knowledge fs promo).1 ≠ "" ∧
      handle_message_dispatch (get_full_knowledge fs promo).1 q ≠
        HandleAction.noDataReply ∧
      consulta_dispatch (get_full_knowledge fs promo).1 q ≠
        ConsultaResult.errorNoData := by
  intro fs promo q
  have hne : (get_full_knowledge fs promo).1 ≠ "" := by
    intro h
    have hlen := congrArg String.length h
    simp only [get_full_knowledge, combineKnowledge, String.length_append] at hlen
    have h23 : ("CATÁLOGO DE PRODUCTOS:\n").length = 23 := by decide
    rw [h23] at hlen
    simp at hlen
  refine ⟨hne, ?_, ?_⟩
  · simp [handle_message_dispatch, hne]
  · simp [consulta_dispatch, hne]

/-! ## Chunking lemmas -/

theorem chunks_foldr_append (cs : List Char) :
    (chunks cs).foldr (fun a b => a ++ b) [] = cs := by
  induction cs using chunks.induct with
  | case1 => rw [chunks]; simp
  | case2 cs h ih =>
    rw [chunks, dif_neg h, List.foldr_cons, ih]
    exact List.take_append_drop MAX_LEN cs

theorem chunks_dropLast_full (cs : List Char) :
    ∀ c ∈ (chunks cs).dropLast, c.length = MAX_LEN := by
  induction cs using chunks.induct with
  | case1 => intro c hc; rw [chunks] at hc; simp at hc
  | case2 cs h ih =>
    intro c hc
    rw [chunks, dif_neg h] at hc
    by_cases hd : cs.drop MAX_LEN = []
    · have hz : chunks (cs.drop MAX_LEN) = [] := by rw [chunks, dif_pos hd]
      rw [hz] at hc
      simp at hc
    · have hz : chunks (cs.drop MAX_LEN) ≠ [] := by
        rw [chunks, dif_neg hd]; simp
      rw [List.dropLast_cons_of_ne_nil hz] at hc
      rcases List.mem_cons.mp hc with rfl | hc2
      · have hle : MAX_LEN ≤ cs.length := by
          by_contra hlt
          push_neg at hlt
          exact hd (List.drop_eq_nil_of_le (Nat.le_of_lt hlt))
        rw [List.length_take]
        exact min_eq_left hle
      · exact ih c hc2

/-- C5: response chunking is pure fixed-width slicing at 3900 characters:
the chunks concatenate back to the original text, every chunk except
possibly the last has the maximum length, and a text of length exactly
7800 yields exactly two chunks of length 3900 each. -/
theorem response_chunking_fixed_width :
    ∀ cs : List Char,
      (chunks cs).foldr (fun a b => a ++ b) [] = cs ∧
      (∀ c ∈ (chunks cs).dropLast, c.length = MAX_LEN) ∧
      (cs.length = 7800 →
        (chunks cs).length = 2 ∧ (chunks cs).map List.length = [3900, 3900]) := by
  intro cs
  refine ⟨chunks_foldr_append cs, chunks_dropLast_full cs, fun h7800 => ?_⟩
  have h1 : cs ≠ [] := by
    intro h; rw [h] at h7800; simp at h7800
  have hdlen : (cs.drop MAX_LEN).length = 3900 := by
    rw [List.length_drop, h7800]; rfl
  have hd1 : cs.drop MAX_LEN ≠ [] := by
    intro h; rw [h] at hdlen; simp at hdlen
  have hdd : (cs.drop MAX_LEN).drop MAX_LEN = [] := by
    apply List.drop_eq_nil_of_le
    rw [hdlen]
    exact Nat.le_refl 3900
  have e1 : chunks cs = cs.take MAX_LEN :: chunks (cs.drop MAX_LEN) := by
    rw [chunks, dif_neg h1]
  have e2 : chunks (cs.drop MAX_LEN) =
      (cs.drop MAX_LEN).take MAX_LEN :: chunks ((cs.drop MAX_LEN).drop MAX_LEN) := by
    rw [chunks, dif_neg hd1]
  have e3 : chunks ((cs.drop MAX_LEN).drop MAX_LEN) = [] := by
    rw [chunks, dif_pos hdd]
  rw [e1, e2, e3]
  refine ⟨rfl, ?_⟩
  simp only [List.map_cons, List.map_nil, List.length_take, hdlen, h7800]
  have hM : MAX_LEN = 3900 := rfl
  rw [hM]
  norm_num

/-- Witness for `response_chunking_fixed_width` on a concrete text of
length 7800. -/
theorem response_chunking_fixed_width_witness :
    (chunks (List.replicate 7800 'a')).length = 2 ∧
    (chunks (List.replicate 7800 'a')).map List.length = [3900, 3900] :=
  (response_chunking_fixed_width (List.replicate 7800 'a')).2.2
    (by rw [List.length_replicate])

/-! ## Model Resolver lemmas -/

theorem findLoop_map_str (sub : String) (ss : List String) :
    findLoop sub (ss.map PyId.str) =
      Except.ok (ss.find? (fun s => strContains s sub)) := by
  induction ss with
  | nil => rfl
  | cons s rest ih =>
    simp only [List.map_cons, findLoop, List.find?_cons]
    by_cases h : strContains s sub
    · simp [h]
    · simp [h, ih]

theorem findLoop_error_typeError (sub : String) :
    ∀ (ids : List PyId) (e : PickErr),
      findLoop sub ids = Except.error e → e = PickErr.typeError := by
  intro ids
  induction ids with
  | nil => intro e h; simp [findLoop] at h
  | cons a rest ih =>
    intro e h
    cases a with
    | str s =>
      by_cases hc : strContains s sub
      · rw [findLoop, if_pos hc] at h; cases h
      · rw [findLoop, if_neg hc] at h; exact ih e h
    | pyNone => rw [findLoop] at h; cases h; rfl
    | pyFalse => rw [findLoop] at h; cases h; rfl

theorem findLoop_ok_none_all_strings (sub : String) :
    ∀ ids : List PyId, findLoop sub ids = Except.ok none →
      ∀ x ∈ ids, ∃ s, x = PyId.str s := by
  intro ids
  induction ids with
  | nil => intro _ x hx; cases hx
  | cons a rest ih =>
    intro h x hx
    cases a with
    | str s =>
      by_cases hc : strContains s sub
      · rw [findLoop, if_pos hc] at h; cases h
      · rw [findLoop, if_neg hc] at h
        rcases List.mem_cons.mp hx with rfl | hx2
        · exact ⟨s, rfl⟩
        · exact ih h x hx2
    | pyNone => rw [findLoop] at h; cases h
    | pyFalse => rw [findLoop] at h; cases h

/-- C1: model resolution is exactly two-tier: a successful probe resolves
to the preferred alias with zero model-listing calls; a failed probe
performs one listing call and scans it — the first identifier containing
`"sonnet"`, else the first containing `"haiku"`, else the configuration
error — which is precisely the spec's scan `resolveBySpecScan`. -/
theorem pick_available_model_two_tier :
    (∀ ids, pick_available_model true ids = (Except.ok PREFERRED_ALIAS, 0)) ∧
    (∀ ss : List String,
      pick_available_model false (ss.map PyId.str) = (resolveBySpecScan ss, 1)) := by
  refine ⟨fun ids => rfl, fun ss => ?_⟩
  cases h1 : ss.find? (fun s => strContains s "sonnet") with
  | some m =>
    simp [pick_available_model, resolveBySpecScan, findLoop_map_str, h1]
  | none =>
    cases h2 : ss.find? (fun s => strContains s "haiku") with
    | some m =>
      simp [pick_available_model, resolveBySpecScan, findLoop_map_str, h1, h2]
    | none =>
      simp [pick_available_model, resolveBySpecScan, findLoop_map_str, h1, h2]

/-- C10: the fallback scan is total only on all-string id lists: such a
list can never produce a `TypeError`, while a list with a non-string
extracted id can never reach the configuration-error branch (the scan
either returns a matching id listed before the bad entry or raises
`TypeError`), and a lone id-less entry raises `TypeError` directly. -/
theorem fallback_scan_requires_string_ids :
    (∀ ss : List String,
      (pick_available_model false (ss.map PyId.str)).1 ≠
        Except.error PickErr.typeError) ∧
    (∀ ids : List PyId, (∃ x ∈ ids, ∀ s, x ≠ PyId.str s) →
      ∀ msg, (pick_available_model false ids).1 ≠
        Except.error (PickErr.configError msg)) ∧
    pick_available_model false [PyId.pyNone] =
      (Except.error PickErr.typeError, 1) := by
  refine ⟨?_, ?_, rfl⟩
  · intro ss
    cases h1 : ss.find? (fun s => strContains s "sonnet") with
    | some m => simp [pick_available_model, findLoop_map_str, h1]
    | none =>
      cases h2 : ss.find? (fun s => strContains s "haiku") with
      | some m => simp [pick_available_model, findLoop_map_str, h1, h2]
      | none => simp [pick_available_model, findLoop_map_str, h1, h2]
  · intro ids hbad msg hcontra
    rcases hbad with ⟨x, hx, hxs⟩
    cases hs : findLoop "sonnet" ids with
    | error e =>
      have he := findLoop_error_typeError "sonnet" ids e hs
      subst he
      simp [pick_available_model, hs] at hcontra
    | ok o =>
      cases o with
      | some m => simp [pick_available_model, hs] at hcontra
      | none =>
        rcases findLoop_ok_none_all_strings "sonnet" ids hs x hx with ⟨s, rfl⟩
        exact hxs s rfl

/-- Witness for `fallback_scan_requires_string_ids` on the concrete list
`[None]`: the result is the `TypeError`, not the configuration error. -/
theorem fallback_scan_requires_string_ids_witness :
    (pick_available_model false [PyId.pyNone]).1 ≠
      Except.error (PickErr.configError
        "No hay modelos válidos para esta API key.") :=
  fallback_scan_requires_string_ids.2.1 [PyId.pyNone]
    ⟨PyId.pyNone, List.mem_singleton.mpr rfl, fun _ h => PyId.noConfusion h⟩
    "No hay modelos válidos para esta API key."

/-! ## Text Corpus Builder lemmas -/

/-- C3 as stated is false: at a one-document directory whose extraction
failed (empty text), the blob is empty — the document's banner section is
absent from the output. -/
theorem failed_extraction_omits_banner :
    (load_all_pdfs ⟨none, some [("a.pdf", "")]⟩).1 = "" ∧
    strContains (load_all_pdfs ⟨none, some [("a.pdf", "")]⟩).1
      "ARCHIVO: a.pdf" = false := by
  exact ⟨rfl, rfl⟩

theorem foldl_skip_empty (l : List (String × String)) (init : String) :
    l.foldl
      (fun acc ft => if ft.2 = "" then acc else acc ++ pdfSection ft.1 ft.2)
      init =
    (l.filter (fun ft => ft.2 != "")).foldl
      (fun acc ft => acc ++ pdfSection ft.1 ft.2) init := by
  induction l generalizing init with
  | nil => rfl
  | cons a l ih =>
    by_cases h : a.2 = ""
    · simp only [List.foldl_cons, List.filter_cons, h]
      simp [ih]
    · simp only [List.foldl_cons, List.filter_cons]
      simp [h, ih]

/-- C3 amended: a document whose text extraction fails (yielding empty
text) is logged and omitted entirely from the output blob — it contributes
no section, banner included — and extraction failure for one document
never aborts the build: the blob is exactly the concatenated sections of
the documents with non-empty text, in file-name order. -/
theorem load_all_pdfs_skips_empty_text :
    ∀ (cache : Option String) (files : List (String × String)),
      (load_all_pdfs ⟨cache, some files⟩).1 =
        ((sortByName files).filter (fun ft => ft.2 != "")).foldl
          (fun acc ft => acc ++ pdfSection ft.1 ft.2) "" := by
  intro cache files
  cases files with
  | nil => rfl
  | cons a l =>
    simp only [load_all_pdfs, Option.getD_some]
    rw [if_neg (List.cons_ne_nil a l)]
    exact foldl_skip_empty _ _

/-- C6: the Text Corpus Builder is deterministic: for any two filesystem
enumerations of the same set of documents (with distinct file names), the
returned blob and the written cache file content coincide, and the
rendered sections follow the lexicographic order of file names. -/
theorem corpus_builder_deterministic_sorted :
    ∀ (f1 f2 : List (String × String)) (cache : Option String),
      f1.Perm f2 → (f1.map Prod.fst).Nodup →
      ((load_all_pdfs ⟨cache, some f1⟩).1 =
         (load_all_pdfs ⟨cache, some f2⟩).1 ∧
       ((load_all_pdfs ⟨cache, some f1⟩).2).cacheFile =
         ((load_all_pdfs ⟨cache, some f2⟩).2).cacheFile) ∧
      List.Sorted (fun a b : String => a.toList ≤ b.toList)
        ((sortByName f1).map Prod.fst) := by
  intro f1 f2 cache hperm hnodup
  have hs1 : List.Sorted nameOrder (sortByName f1) :=
    List.sorted_insertionSort nameOrder f1
  have hs2 : List.Sorted nameOrder (sortByName f2) :=
    List.sorted_insertionSort nameOrder f2
  have hsorted : List.Sorted (fun a b : String => a.toList ≤ b.toList)
      ((sortByName f1).map Prod.fst) := List.pairwise_map.mpr hs1
  have hperm1 : (sortByName f1).Perm f1 := List.perm_insertionSort nameOrder f1
  have hperm2 : (sortByName f2).Perm f2 := List.perm_insertionSort nameOrder f2
  have hnodup1 : ((sortByName f1).map Prod.fst).Nodup :=
    ((hperm1.map Prod.fst).nodup_iff).mpr hnodup
  have hnodup2 : ((sortByName f2).map Prod.fst).Nodup := by
    have hn2 : (f2.map Prod.fst).Nodup :=
      ((hperm.map Prod.fst).nodup_iff).mp hnodup
    exact ((hperm2.map Prod.fst).nodup_iff).mpr hn2
  have hstrict : ∀ l : List (String × String),
      List.Sorted nameOrder l → (l.map Prod.fst).Nodup →
      List.Pairwise (fun a b : String × String => a.1.toList < b.1.toList) l := by
    intro l hsort hnd
    have hne : List.Pairwise (fun a b : String × String => a.1 ≠ b.1) l :=
      List.pairwise_map.mp hnd
    refine (List.Pairwise.and hsort hne).imp ?_
    intro a b hab
    exact lt_of_le_of_ne hab.1 (fun hEq => hab.2 (String.toList_inj.mp hEq))
  have hlt1 := hstrict _ hs1 hnodup1
  have hlt2 := hstrict _ hs2 hnodup2
  haveI : IsAntisymm (String × String)
      (fun a b : String × String => a.1.toList < b.1.toList) :=
    ⟨fun _ _ h1 h2 => absurd h1 (lt_asymm h2)⟩
  have hperm12 : (sortByName f1).Perm (sortByName f2) :=
    hperm1.trans (hperm.trans hperm2.symm)
  have heq : sortByName f1 = sortByName f2 :=
    List.eq_of_perm_of_sorted hperm12 hlt1 hlt2
  refine ⟨?_, hsorted⟩
  by_cases hnil : f1 = []
  · subst hnil
    have h2 : f2 = [] := hperm.symm.eq_nil
    subst h2
    exact ⟨rfl, rfl⟩
  · have hnil2 : f2 ≠ [] := by
      intro h; subst h; exact hnil hperm.eq_nil
    simp only [load_all_pdfs, Option.getD_some]
    rw [if_neg hnil, if_neg hnil2, heq]
    exact ⟨rfl, rfl⟩

/-- Witness for `corpus_builder_deterministic_sorted`: two enumeration
orders of the same two documents. -/
theorem corpus_builder_deterministic_sorted_witness :
    ((load_all_pdfs ⟨none, some [("b.pdf", "B"), ("a.pdf", "A")]⟩).1 =
       (load_all_pdfs ⟨none, some [("a.pdf", "A"), ("b.pdf", "B")]⟩).1 ∧
     ((load_all_pdfs ⟨none, some [("b.pdf", "B"), ("a.pdf", "A")]⟩).2).cacheFile =
       ((load_all_pdfs ⟨none, some [("a.pdf", "A"), ("b.pdf", "B")]⟩).2).cacheFile) ∧
    List.Sorted (fun a b : String => a.toList ≤ b.toList)
      ((sortByName [("b.pdf", "B"), ("a.pdf", "A")]).map Prod.fst) :=
  corpus_builder_deterministic_sorted
    [("b.pdf", "B"), ("a.pdf", "A")] [("a.pdf", "A"), ("b.pdf", "B")] none
    (by decide) (by decide)

end PharmacyBot
